import Mathlib

/-!
Verification of the deterministic resume scoring engine
(server/scoring_engine.py): a shallow embedding of the data model and of
the functions calculate_score, generate_evaluation and
generate_optimization_plan, followed by theorems about the embedded code.

Modelling conventions:
- Python floats are modelled as exact rational numbers (ℚ); Python ints as ℤ
  (counters that the code only ever increments are ℕ).
- Python dicts for requirements and gaps are modelled as structures whose
  possibly-absent keys are Option fields.  A requirement's evidence key can be
  absent or can be present with value None, so it is Option (Option String).
- Python round() is round-half-to-even (pyRound below); round(x, 1) divides
  and multiplies by 10.  int() on a nonnegative value is the floor.
- re.findall counting for the fixed quality-heuristic patterns is modelled by
  dedicated left-to-right scanners; backtracking of a whitespace run across a
  line boundary in the increased/decreased pattern is not reproduced.
- Exceptions are modelled with Except: generate_optimization_plan can raise a
  TypeError (slicing a None evidence value), so it returns an Except.
-/

namespace ScoringEngine

/-- Python round(): round half to even, on exact rationals. -/
def pyRound (q : ℚ) : ℤ :=
  if Int.fract q < 1/2 then ⌊q⌋
  else if 1/2 < Int.fract q then ⌊q⌋ + 1
  else if ⌊q⌋ % 2 = 0 then ⌊q⌋ else ⌊q⌋ + 1

/-- Python round(x, 1): one decimal digit, half to even. -/
def pyRound1 (q : ℚ) : ℚ := (pyRound (q * 10) : ℚ) / 10

/-- Python round(x, 2): two decimal digits, half to even. -/
def pyRound2 (q : ℚ) : ℚ := (pyRound (q * 100) : ℚ) / 100

lemma floor_le_pyRound (q : ℚ) : ⌊q⌋ ≤ pyRound q := by
  unfold pyRound; split_ifs <;> omega

lemma pyRound_le_floor_add_one (q : ℚ) : pyRound q ≤ ⌊q⌋ + 1 := by
  unfold pyRound; split_ifs <;> omega

lemma pyRound_le_add_half (q : ℚ) : (pyRound q : ℚ) ≤ q + 1/2 := by
  have hfl := Int.floor_le q
  have hfr : Int.fract q = q - ⌊q⌋ := (Int.self_sub_floor q).symm
  unfold pyRound
  split_ifs with h1 h2 h3
  · linarith
  · rw [hfr] at h2
    have hc : ((⌊q⌋ + 1 : ℤ) : ℚ) = (⌊q⌋ : ℚ) + 1 := by push_cast; ring
    rw [hc]; linarith
  · rw [hfr] at h1 h2
    have : q - ⌊q⌋ = 1/2 := le_antisymm (not_lt.mp h2) (not_lt.mp h1)
    linarith
  · rw [hfr] at h1 h2
    have : q - ⌊q⌋ = 1/2 := le_antisymm (not_lt.mp h2) (not_lt.mp h1)
    have hc : ((⌊q⌋ + 1 : ℤ) : ℚ) = (⌊q⌋ : ℚ) + 1 := by push_cast; ring
    rw [hc]; linarith

lemma pyRound_mono {q r : ℚ} (h : q ≤ r) : pyRound q ≤ pyRound r := by
  have hfl : ⌊q⌋ ≤ ⌊r⌋ := Int.floor_le_floor h
  by_cases hf : ⌊q⌋ < ⌊r⌋
  · calc pyRound q ≤ ⌊q⌋ + 1 := pyRound_le_floor_add_one q
      _ ≤ ⌊r⌋ := by omega
      _ ≤ pyRound r := floor_le_pyRound r
  · have hf2 : ⌊q⌋ = ⌊r⌋ := le_antisymm hfl (not_lt.mp hf)
    have hfrac : Int.fract q ≤ Int.fract r := by
      rw [← Int.self_sub_floor q, ← Int.self_sub_floor r, hf2]
      linarith
    unfold pyRound
    rw [hf2]
    split_ifs <;> first | omega | linarith

lemma pyRound_nonneg {q : ℚ} (h : 0 ≤ q) : 0 ≤ pyRound q := by
  have : (0 : ℤ) ≤ ⌊q⌋ := Int.floor_nonneg.mpr h
  have := floor_le_pyRound q
  omega

lemma pyRound_le_of_le_intCast {q : ℚ} {n : ℤ} (h : q ≤ (n : ℚ)) : pyRound q ≤ n := by
  have hfl : ⌊q⌋ ≤ n := by
    have := Int.floor_le_floor h
    simpa using this
  unfold pyRound
  have hfr : Int.fract q = q - ⌊q⌋ := (Int.self_sub_floor q).symm
  split_ifs with h1 h2 h3
  · exact hfl
  · rw [hfr] at h2
    have hlt : (⌊q⌋ : ℚ) < n := by linarith
    exact Int.lt_iff_add_one_le.mp (by exact_mod_cast hlt)
  · exact hfl
  · rw [hfr] at h1 h2
    have heq : q - ⌊q⌋ = 1/2 := le_antisymm (not_lt.mp h2) (not_lt.mp h1)
    have : (⌊q⌋ : ℚ) = q - 1/2 := by linarith
    have hlt : (⌊q⌋ : ℚ) < n := by linarith
    exact Int.lt_iff_add_one_le.mp (by exact_mod_cast hlt)

lemma pyRound_eq_low {q : ℚ} {n : ℤ} (h1 : (n : ℚ) ≤ q) (h2 : q < (n : ℚ) + 1/2) :
    pyRound q = n := by
  have hf : ⌊q⌋ = n := by
    rw [Int.floor_eq_iff]
    refine ⟨h1, ?_⟩
    linarith
  have hfr : Int.fract q < 1/2 := by
    rw [← Int.self_sub_floor, hf]
    linarith
  unfold pyRound
  rw [if_pos hfr, hf]

lemma pyRound_eq_high {q : ℚ} {n : ℤ} (h1 : (n : ℚ) + 1/2 < q) (h2 : q < (n : ℚ) + 1) :
    pyRound q = n + 1 := by
  have hf : ⌊q⌋ = n := by
    rw [Int.floor_eq_iff]
    refine ⟨by linarith, ?_⟩
    linarith
  have hfr : 1/2 < Int.fract q := by
    rw [← Int.self_sub_floor, hf]
    linarith
  unfold pyRound
  rw [if_neg (by linarith), if_pos hfr, hf]

lemma pyRound_intCast (n : ℤ) : pyRound (n : ℚ) = n :=
  pyRound_eq_low le_rfl (by norm_num)

/-- One requirement dict handed to the engine.  Each field models a dict key
that may be absent (none).  The evidence key may also be present with value
None, hence Option (Option String). -/
structure Req where
  text : Option String
  tier : Option ℤ
  match_type : Option String
  evidence : Option (Option String)
deriving DecidableEq

/-- Effective tier: req.get("tier", 2), then invalid values default to 2. -/
def effTier (r : Req) : ℤ :=
  match r.tier with
  | some t => if t = 1 ∨ t = 2 ∨ t = 3 then t else 2
  | none => 2

/-- Effective match type: req.get("match_type", "NONE"). -/
def effMT (r : Req) : String := r.match_type.getD "NONE"

/-- CONFIG tier_points with the accompanying .get(tier, 8) default. -/
def tierPoints (t : ℤ) : ℚ :=
  if t = 1 then 15 else if t = 2 then 8 else if t = 3 then 4 else 8

/-- CONFIG match_credit with the accompanying .get(match_type, 0.0) default. -/
def matchCredit (mt : String) : ℚ :=
  if mt = "EXACT" then 1
  else if mt = "VARIANT" then 9/10
  else if mt = "CONTEXTUAL" then 3/4
  else if mt = "NONE" then 0
  else 0

lemma matchCredit_EXACT : matchCredit "EXACT" = 1 := by simp [matchCredit]

lemma matchCredit_VARIANT : matchCredit "VARIANT" = 9/10 := by simp [matchCredit]

lemma matchCredit_CONTEXTUAL : matchCredit "CONTEXTUAL" = 3/4 := by simp [matchCredit]

lemma matchCredit_NONE : matchCredit "NONE" = 0 := by simp [matchCredit]

lemma tierPoints_one : tierPoints 1 = 15 := by norm_num [tierPoints]

lemma tierPoints_two : tierPoints 2 = 8 := by norm_num [tierPoints]

lemma tierPoints_three : tierPoints 3 = 4 := by norm_num [tierPoints]

/-- Entry of a tier bucket's details list (the dict built in the loop). -/
structure MatchDetail where
  skill : String
  match_type : String
  evidence : Option String
  points_earned : ℚ
  points_possible : ℚ
  credit_pct : ℤ
deriving DecidableEq

/-- req.get("evidence") - absent key gives None. -/
def evidenceOf (r : Req) : Option String := r.evidence.getD none

def mkDetail (r : Req) : MatchDetail :=
  { skill := r.text.getD ""
    match_type := effMT r
    evidence := evidenceOf r
    points_earned := pyRound1 (tierPoints (effTier r) * matchCredit (effMT r))
    points_possible := tierPoints (effTier r)
    credit_pct := ⌊matchCredit (effMT r) * 100⌋ }

/-- One tier bucket of the tier_scores dict. -/
structure TierAcc where
  earned : ℚ
  possible : ℚ
  matched : ℕ
  total : ℕ
  details : List MatchDetail
deriving DecidableEq

def TierAcc.init : TierAcc := ⟨0, 0, 0, 0, []⟩

/-- State accumulated by the requirement loop of calculate_score (STEP 1). -/
structure ScanState where
  t1 : TierAcc
  t2 : TierAcc
  t3 : TierAcc
  tier1_missing : ℕ
  tier1_none_count : ℕ
  missing_critical : List String
  matched_critical : List String
  weak_matches : List String
deriving DecidableEq

def ScanState.init : ScanState :=
  ⟨TierAcc.init, TierAcc.init, TierAcc.init, 0, 0, [], [], []⟩

/-- Adding one requirement to its tier bucket. -/
def stepTier (acc : TierAcc) (r : Req) : TierAcc :=
  { earned := acc.earned + tierPoints (effTier r) * matchCredit (effMT r)
    possible := acc.possible + tierPoints (effTier r)
    matched := acc.matched + (if effMT r ≠ "NONE" then 1 else 0)
    total := acc.total + 1
    details := acc.details ++ [mkDetail r] }

/-- Body of the requirement loop of calculate_score: bucket accumulation plus
the Tier-1 tracking (missing/matched/weak lists and missing counters). -/
def scanStep (s : ScanState) (r : Req) : ScanState :=
  { t1 := if effTier r = 1 then stepTier s.t1 r else s.t1
    t2 := if effTier r = 2 then stepTier s.t2 r else s.t2
    t3 := if effTier r = 3 then stepTier s.t3 r else s.t3
    tier1_missing := s.tier1_missing + (if effTier r = 1 ∧ effMT r = "NONE" then 1 else 0)
    tier1_none_count := s.tier1_none_count + (if effTier r = 1 ∧ effMT r = "NONE" then 1 else 0)
    missing_critical := s.missing_critical ++
      (if effTier r = 1 ∧ effMT r = "NONE" then [r.text.getD ""] else [])
    matched_critical := s.matched_critical ++
      (if effTier r = 1 ∧ effMT r ≠ "NONE" then [r.text.getD ""] else [])
    weak_matches := s.weak_matches ++
      (if (effTier r = 1 ∨ effTier r = 2) ∧ effMT r = "CONTEXTUAL" then [r.text.getD ""] else []) }

def scanReqs (reqs : List Req) : ScanState := reqs.foldl scanStep ScanState.init

/-- Substring occurrence at any position of a character list. -/
def containsSub (needle : List Char) : List Char → Bool
  | [] => needle.isEmpty
  | c :: t => needle.isPrefixOf (c :: t) || containsSub needle t

/-- Python substring test: needle in hay (the empty needle is always in). -/
def strContains (hay needle : String) : Bool :=
  containsSub needle.toList hay.toList

/-- Python str.lower(), character by character. -/
def pyLower (s : String) : String := String.mk (s.toList.map Char.toLower)

/-- The guard around the experience-cap reason: "experience" not in
str(caps_applied).lower().  The fixed cap strings are quoted separately in
str(list), so the test is equivalent to an element-wise substring test. -/
def capsMentionExperience (caps : List String) : Bool :=
  caps.any (fun s => strContains (pyLower s) "experience")

/-- STEP 2 ratio: candidate/required, defaulting to 1.0 when required ≤ 0. -/
def experienceRatio (required_years candidate_years : ℤ) : ℚ :=
  if required_years > 0 then (candidate_years : ℚ) / (required_years : ℚ) else 1

/-- STEP 2 additive adjustment from the ratio plus seniority signals. -/
def experienceAdjustment (ratio : ℚ) (is_senior_role : Bool)
    (seniority_signals_found : ℤ) : ℤ :=
  (if ratio < 1/2 then -15
   else if ratio < 3/4 then -8
   else if ratio ≥ 3/2 then 3 else 0)
  + (if is_senior_role then
       (if seniority_signals_found ≥ 2 then 5
        else if seniority_signals_found = 0 then -10 else 0)
     else 0)

def totalEarned (s : ScanState) : ℚ := s.t1.earned + s.t2.earned + s.t3.earned

def totalPossible (s : ScanState) : ℚ := s.t1.possible + s.t2.possible + s.t3.possible

/-- STEP 3: clamp((earned/possible)*100 + adjustment, 0, 100); the arithmetic
term is 0 when nothing is possible. -/
def rawScoreQ (reqs : List Req) (required_years candidate_years : ℤ)
    (is_senior_role : Bool) (seniority_signals_found : ℤ) : ℚ :=
  let s := scanReqs reqs
  let base := if totalPossible s = 0 then 0 else totalEarned s / totalPossible s * 100
  max 0 (min 100 (base + (experienceAdjustment (experienceRatio required_years candidate_years)
    is_senior_role seniority_signals_found : ℚ)))

/-- STEP 4 hard caps: the Tier-1 if/elif chain followed by the independent
experience cap; returns the capped score and the caps_applied list. -/
def applyCaps (raw : ℚ) (tier1_total tier1_none_count tier1_missing : ℕ)
    (ratio : ℚ) : ℚ × List String :=
  let step1 : ℚ × List String :=
    if 0 < tier1_total ∧ tier1_none_count = tier1_total then
      (min raw 30, ["No critical requirements matched"])
    else if 3 ≤ tier1_missing then
      (min raw 45, ["Missing " ++ toString tier1_missing ++ "+ critical requirements"])
    else if 2 ≤ tier1_missing then
      (min raw 60, ["Missing " ++ toString tier1_missing ++ " critical requirements"])
    else if 1 ≤ tier1_missing then
      (min raw 75, ["Missing " ++ toString tier1_missing ++ " critical requirement(s)"])
    else (raw, [])
  if ratio < 1/2 then
    (min step1.1 55,
     if capsMentionExperience step1.2 then step1.2
     else step1.2 ++ ["Experience below 50% of requirement"])
  else step1

/-- STEP 5 interpretation bands. -/
def interpretationOf (final : ℤ) : String :=
  if final ≥ 85 then "STRONG MATCH"
  else if final ≥ 70 then "GOOD MATCH"
  else if final ≥ 55 then "BORDERLINE"
  else if final ≥ 40 then "BELOW THRESHOLD"
  else "POOR FIT"

/-- STEP 7 percentile: the percentile_map walked in descending threshold
order, with the final fallback of 5. -/
def estimatePercentile (score : ℤ) : ℤ :=
  if score ≥ 95 then 90
  else if score ≥ 85 then 75
  else if score ≥ 70 then 50
  else if score ≥ 55 then 30
  else if score ≥ 40 then 15
  else if score ≥ 0 then 5
  else 5

structure TierBreakdown where
  earned : ℚ
  possible : ℚ
  percentage : ℤ
  matched_count : ℕ
  total_count : ℕ
  match_details : List MatchDetail
deriving DecidableEq

def buildTierBreakdown (t : TierAcc) : TierBreakdown :=
  { earned := pyRound1 t.earned
    possible := t.possible
    percentage := if 0 < t.possible then pyRound (t.earned / t.possible * 100) else 0
    matched_count := t.matched
    total_count := t.total
    match_details := t.details }

/-- Non-overlapping left-to-right match counting, as re.findall does for the
fixed patterns below: at each position try the pattern; on a match of length
n, continue after it, otherwise advance one character. -/
def scanCount (matchAt : List Char → Option ℕ) : List Char → ℕ
  | [] => 0
  | c :: cs =>
    match matchAt (c :: cs) with
    | some n => 1 + scanCount matchAt (cs.drop (n - 1))
    | none => scanCount matchAt cs
termination_by l => l.length
decreasing_by
  · simp only [List.length_cons, List.length_drop]; omega
  · simp only [List.length_cons]; omega

/-- Matcher for the pattern of one or more digits followed by a percent
sign. -/
def matchPercent (l : List Char) : Option ℕ :=
  let ds := l.takeWhile Char.isDigit
  if ds.isEmpty then none
  else match l.drop ds.length with
    | '%' :: _ => some (ds.length + 1)
    | _ => none

/-- Matcher for a dollar sign followed by one or more digits or commas. -/
def matchDollar (l : List Char) : Option ℕ :=
  match l with
  | '$' :: rest =>
    let ds := rest.takeWhile (fun c => c.isDigit || c == ',')
    if ds.isEmpty then none else some (1 + ds.length)
  | _ => none

/-- Matcher for a word stem with an optional greedy plural s. -/
def matchStemAt (stem : List Char) (l : List Char) : Option ℕ :=
  if stem.isPrefixOf l then
    match l.drop stem.length with
    | 's' :: _ => some (stem.length + 1)
    | _ => some stem.length
  else none

/-- Alternation over stems, tried left to right as the regex engine does. -/
def matchFirstStem : List (List Char) → List Char → Option ℕ
  | [], _ => none
  | stem :: rest, l =>
    match matchStemAt stem l with
    | some n => some n
    | none => matchFirstStem rest l

/-- Matcher for digits, an optional plus, optional whitespace, then one of the
given stems with optional plural s. -/
def matchNumWord (allowPlus : Bool) (stems : List (List Char)) (l : List Char) :
    Option ℕ :=
  let ds := l.takeWhile Char.isDigit
  if ds.isEmpty then none
  else
    let rest1 := l.drop ds.length
    let plusLen := if allowPlus then (match rest1 with | '+' :: _ => 1 | _ => 0) else 0
    let rest2 := rest1.drop plusLen
    let ws := rest2.takeWhile Char.isWhitespace
    let rest3 := rest2.drop ws.length
    match matchFirstStem stems rest3 with
    | some n => some (ds.length + plusLen + ws.length + n)
    | none => none

/-- Alternation over full words, tried left to right. -/
def matchFirstWord : List (List Char) → List Char → Option ℕ
  | [], _ => none
  | w :: rest, l => if w.isPrefixOf l then some w.length else matchFirstWord rest l

/-- Matcher for an achievement verb, whitespace, then anything up to the last
digit of the line (the greedy dot-star followed by digits). -/
def matchVerbNum (l : List Char) : Option ℕ :=
  match matchFirstWord
      ["increased".toList, "decreased".toList, "improved".toList,
       "reduced".toList, "grew".toList, "saved".toList] l with
  | none => none
  | some vlen =>
    let rest := l.drop vlen
    let ws := rest.takeWhile Char.isWhitespace
    if ws.isEmpty then none
    else
      let rest2 := rest.drop ws.length
      let seg := rest2.takeWhile (fun c => c != '\n')
      let k := seg.reverse.findIdx Char.isDigit
      if seg.length ≤ k then none
      else some (vlen + ws.length + (seg.length - k))

/-- Python len(resume_text.split()): whitespace-separated word count. -/
def wordCount (s : String) : ℕ :=
  ((s.split Char.isWhitespace).filter (fun w => w != "")).length

/-- The 21 strong verbs checked by _analyze_resume_quality. -/
def strongVerbs21 : List String :=
  ["led", "managed", "developed", "created", "implemented", "designed",
   "built", "launched", "achieved", "delivered", "optimized", "increased",
   "reduced", "improved", "established", "transformed", "orchestrated",
   "spearheaded", "pioneered", "architected", "streamlined"]

/-- The 11 strong verbs checked by _get_quality_details. -/
def strongVerbs11 : List String :=
  ["led", "managed", "developed", "created", "implemented", "designed",
   "built", "launched", "achieved", "delivered", "optimized"]

/-- The five metrics_patterns of _analyze_resume_quality, each counted by its
own findall pass and summed. -/
def countMetricPatterns (tl : List Char) : ℕ :=
  scanCount matchPercent tl
  + scanCount matchDollar tl
  + scanCount (matchNumWord true ["year".toList, "month".toList]) tl
  + scanCount (matchNumWord false
      ["client".toList, "customer".toList, "user".toList, "project".toList,
       "team member".toList]) tl
  + scanCount matchVerbNum tl

/-- _analyze_resume_quality: the 0-100 heuristic quality score. -/
def analyzeResumeQuality (resume_text : String) : ℤ :=
  if resume_text = "" then 70
  else
    let text_lower := pyLower resume_text
    let metrics_found := countMetricPatterns text_lower.toList
    let metricsBonus : ℤ :=
      if metrics_found ≥ 5 then 25 else if metrics_found ≥ 3 then 15
      else if metrics_found ≥ 1 then 5 else 0
    let verbs_found := (strongVerbs21.filter (fun v => strContains text_lower v)).length
    let verbsBonus : ℤ :=
      if verbs_found ≥ 8 then 15 else if verbs_found ≥ 5 then 10
      else if verbs_found ≥ 3 then 5 else 0
    let wc := wordCount resume_text
    let wcBonus : ℤ := if wc ≥ 400 then 10 else if wc ≥ 250 then 5
      else if wc < 150 then -10 else 0
    min 100 (max 0 (50 + metricsBonus + verbsBonus + wcBonus))

structure QualityDetails where
  metrics_count : ℕ
  strong_verbs_count : ℕ
  word_count : ℕ
  has_quantified_achievements : Bool
deriving DecidableEq

/-- The single alternation pattern of _get_quality_details. -/
def countQualityMetrics (tl : List Char) : ℕ :=
  scanCount (fun l => (matchPercent l).orElse (fun _ => (matchDollar l).orElse (fun _ =>
    matchNumWord false ["year".toList, "project".toList, "client".toList] l))) tl

/-- _get_quality_details on non-empty text (the empty-text case returns the
empty dict and is modelled with Option at the call sites). -/
def getQualityDetails (resume_text : String) : QualityDetails :=
  let text_lower := pyLower resume_text
  let metrics := countQualityMetrics text_lower.toList
  { metrics_count := metrics
    strong_verbs_count := (strongVerbs11.filter (fun v => strContains text_lower v)).length
    word_count := wordCount resume_text
    has_quantified_achievements := decide (metrics ≥ 3) }

/-- _detect_seniority_level from the experience ratio. -/
def detectSeniorityLevel (ratio : ℚ) : String :=
  let est := ratio * 4
  if 0 ≤ est ∧ est ≤ 2 then "entry"
  else if 3 ≤ est ∧ est ≤ 5 then "mid"
  else if 6 ≤ est ∧ est ≤ 10 then "senior"
  else if 10 ≤ est ∧ est ≤ 99 then "executive"
  else "mid"

/-- contextual_bonus looked up from CONFIG seniority_levels. -/
def contextualBonus (level : String) : ℤ :=
  if level = "entry" then 0 else if level = "mid" then 5
  else if level = "senior" then 10 else if level = "executive" then 15 else 0

/-- Keyword-presence dimension with its details dict flattened into fields. -/
structure KeywordPresenceDim where
  score : ℤ
  label : String
  description : String
  weight : ℚ
  found : ℕ
  total : ℕ
  missing : List String
deriving DecidableEq

/-- Resume-quality dimension with its details dict flattened into fields
(none quality_details models the empty dict on empty text). -/
structure ResumeQualityDim where
  score : ℤ
  label : String
  description : String
  weight : ℚ
  quality_details : Option QualityDetails
  seniority_level : String
  seniority_bonus_applied : ℤ
deriving DecidableEq

/-- Job-alignment dimension with its details dict flattened into fields. -/
structure JobAlignmentDim where
  score : ℤ
  label : String
  description : String
  weight : ℚ
  tier1_alignment : ℤ
  tier2_alignment : ℤ
  experience_ratio : ℚ
deriving DecidableEq

structure Dimensions where
  keyword_presence : KeywordPresenceDim
  resume_quality : ResumeQualityDim
  job_alignment : JobAlignmentDim
deriving DecidableEq

set_option linter.unusedVariables false in
/-- _calculate_dimensions (the seniority_signals, is_senior_role and
requirements parameters are unused in the source body as well). -/
def calcDimensions (tier_scores : ScanState) (experience_ratio : ℚ)
    (seniority_signals : ℤ) (is_senior_role : Bool) (resume_text : String)
    (requirements : List Req) : Dimensions :=
  let seniority_level := detectSeniorityLevel experience_ratio
  let contextual_bonus := contextualBonus seniority_level
  let total_matched := tier_scores.t1.matched + tier_scores.t2.matched + tier_scores.t3.matched
  let total_keywords := tier_scores.t1.total + tier_scores.t2.total + tier_scores.t3.total
  let presence_pct : ℤ :=
    if 0 < total_keywords then pyRound ((total_matched : ℚ) / (total_keywords : ℚ) * 100) else 0
  let allDetails := tier_scores.t1.details ++ tier_scores.t2.details ++ tier_scores.t3.details
  let base_quality : ℤ := if resume_text ≠ "" then analyzeResumeQuality resume_text else 70
  let quality_score : ℤ := min 100 (base_quality + contextual_bonus)
  let tier1_alignment : ℤ :=
    if 0 < tier_scores.t1.possible then pyRound (tier_scores.t1.earned / tier_scores.t1.possible * 100) else 0
  let tier2_alignment : ℤ :=
    if 0 < tier_scores.t2.possible then pyRound (tier_scores.t2.earned / tier_scores.t2.possible * 100) else 0
  let alignment_base : ℤ := pyRound ((tier1_alignment : ℚ) * (7/10) + (tier2_alignment : ℚ) * (3/10))
  let alignment_score : ℤ := min 100 (alignment_base + contextual_bonus / 2)
  { keyword_presence :=
      { score := presence_pct
        label := "Keyword Presence"
        description := "Keywords found in resume (recruiter search readiness)"
        weight := 4/10
        found := total_matched
        total := total_keywords
        missing := (allDetails.filter (fun d => d.match_type == "NONE")).map (fun d => d.skill) }
    resume_quality :=
      { score := quality_score
        label := "Resume Quality"
        description := "Quantified achievements, action verbs, professional presentation"
        weight := 35/100
        quality_details := if resume_text ≠ "" then some (getQualityDetails resume_text) else none
        seniority_level := seniority_level
        seniority_bonus_applied := contextual_bonus }
    job_alignment :=
      { score := alignment_score
        label := "Job Alignment"
        description := "How well your experience aligns with job requirements"
        weight := 25/100
        tier1_alignment := tier1_alignment
        tier2_alignment := tier2_alignment
        experience_ratio := experience_ratio } }

structure AlignmentRefinement where
  skill : String
  current : String
  suggested : String
  impact : String
  blocking : String
deriving DecidableEq

structure EvaluationResult where
  hiring_readiness : String
  hiring_readiness_summary : String
  ats_status : String
  ats_details : List String
  ats_summary : String
  search_visibility : String
  searchable_terms : List String
  search_summary : String
  alignment_score : ℤ
  alignment_strengths : List String
  alignment_refinements : List AlignmentRefinement
  human_readability_stars : ℕ
  human_readability_notes : List String
  ready_to_submit : Bool
  verdict_message : String
deriving DecidableEq

structure ScoringResult where
  score : ℤ
  raw_score : ℚ
  interpretation : String
  tier1 : TierBreakdown
  tier2 : TierBreakdown
  tier3 : TierBreakdown
  total_earned : ℚ
  total_possible : ℚ
  caps_applied : List String
  experience_adjustment : ℤ
  experience_ratio : ℚ
  missing_critical : List String
  matched_critical : List String
  weak_matches : List String
  dimensions : Dimensions
  percentile_estimate : ℤ
  evaluation : Option EvaluationResult
deriving DecidableEq

/-- calculate_score: the main deterministic scoring function. -/
def calculate_score (requirements : List Req) (required_years candidate_years : ℤ)
    (is_senior_role : Bool) (seniority_signals_found : ℤ) (resume_text : String) :
    ScoringResult :=
  let s := scanReqs requirements
  let ratio := experienceRatio required_years candidate_years
  let adj := experienceAdjustment ratio is_senior_role seniority_signals_found
  let raw := rawScoreQ requirements required_years candidate_years is_senior_role
    seniority_signals_found
  let capped := applyCaps raw s.t1.total s.tier1_none_count s.tier1_missing ratio
  let final := pyRound capped.1
  { score := final
    raw_score := pyRound1 raw
    interpretation := interpretationOf final
    tier1 := buildTierBreakdown s.t1
    tier2 := buildTierBreakdown s.t2
    tier3 := buildTierBreakdown s.t3
    total_earned := pyRound1 (totalEarned s)
    total_possible := totalPossible s
    caps_applied := capped.2
    experience_adjustment := adj
    experience_ratio := pyRound2 ratio
    missing_critical := s.missing_critical
    matched_critical := s.matched_critical
    weak_matches := s.weak_matches
    dimensions := calcDimensions s ratio seniority_signals_found is_senior_role
      resume_text requirements
    percentile_estimate := estimatePercentile final
    evaluation := none }

/-- The tier_scores dict as passed to generate_evaluation. -/
structure TierScores where
  t1 : TierAcc
  t2 : TierAcc
  t3 : TierAcc
deriving DecidableEq

/-- generate_evaluation: the six-axis truthful evaluation.  The source also
reads tier_scores[1]["total"] into a local it never uses. -/
def generate_evaluation (score : ℤ) (tier_scores : TierScores)
    (missing_critical matched_critical weak_matches : List String)
    (experience_ratio : ℚ) (resume_text : String) : EvaluationResult :=
  let tier1_matched := tier_scores.t1.matched
  let hiring :=
    if missing_critical.length = 0 ∧ experience_ratio ≥ 3/4 then
      ("HIGH", "You meet all required qualifications and are competitive for this role.")
    else if missing_critical.length ≤ 1 ∧ experience_ratio ≥ 1/2 then
      ("MEDIUM", "You meet most requirements. Address the gaps below to strengthen your application.")
    else
      ("LOW", "There are significant gaps between your resume and this role\x27s requirements.")
  let total_matched := tier_scores.t1.matched + tier_scores.t2.matched + tier_scores.t3.matched
  let total_keywords := tier_scores.t1.total + tier_scores.t2.total + tier_scores.t3.total
  let match_rate : ℚ :=
    if 0 < total_keywords then (total_matched : ℚ) / (total_keywords : ℚ) * 100 else 0
  let ats : String × List String × String :=
    if match_rate ≥ 80 then
      ("STRONG",
       ["Resume parses correctly", "All critical keywords present",
        "No disqualifying gaps detected", "Recruiters can find you in search results"],
       "This resume would not be filtered out by an enterprise ATS.")
    else if match_rate ≥ 60 then
      ("PASS",
       ["Resume parses correctly", "Most keywords present"] ++
         (if missing_critical ≠ [] then
            ["Missing " ++ toString missing_critical.length ++ " critical term(s)"] else []),
       "This resume should pass most ATS filters but could be stronger.")
    else
      ("RISK",
       ["Several required keywords missing",
        "Only " ++ toString ⌊match_rate⌋ ++ "% keyword coverage"],
       "This resume may be filtered out. Consider adding missing keywords.")
  let searchable_terms := tier_scores.t2.details.foldl
    (fun acc d => if d.match_type ≠ "NONE" ∧ acc.length < 8 then acc ++ [d.skill] else acc)
    (matched_critical.take 5)
  let search :=
    if match_rate ≥ 75 then
      ("HIGH", "Your resume contains the right titles, skills, and experience for recruiter searches.")
    else if match_rate ≥ 50 then
      ("MEDIUM", "You are somewhat discoverable but adding key terms would help.")
    else
      ("LOW", "Recruiters may have difficulty finding you with current keyword coverage.")
  let quality_details := if resume_text ≠ "" then some (getQualityDetails resume_text) else none
  let alignment_strengths :=
    (if 0 < tier1_matched then [toString tier1_matched ++ " critical skills clearly stated"] else [])
    ++ (if experience_ratio ≥ 1 then ["Experience meets or exceeds requirements"] else [])
    ++ (if (quality_details.map (fun q => q.has_quantified_achievements)).getD false then
          ["Quantified achievements included"] else [])
    ++ (if 5 ≤ (quality_details.map (fun q => q.strong_verbs_count)).getD 0 then
          ["Strong action verbs present"] else [])
  let alignment_refinements := (weak_matches.take 3).map (fun skill =>
    { skill := skill
      current := "Mentioned contextually"
      suggested := "Make \x27" ++ skill ++ "\x27 more explicit with specific examples"
      impact := "Slightly higher alignment score"
      blocking := "No" : AlignmentRefinement })
  let quality_score := if resume_text ≠ "" then analyzeResumeQuality resume_text else 70
  let readability : ℕ × List String :=
    if quality_score ≥ 85 then
      (5, ["Clear accomplishments", "Strong metrics", "Easy to scan", "Compelling narrative"])
    else if quality_score ≥ 70 then
      (4, ["Clear accomplishments", "Metrics included", "Easy to scan"])
    else if quality_score ≥ 55 then
      (3, ["Readable but could use more metrics", "Consider adding impact statements"])
    else if quality_score ≥ 40 then
      (2, ["Needs more quantified achievements", "Add specific outcomes"])
    else
      (1, ["Significant improvements needed", "Add metrics and clear accomplishments"])
  let verdict :=
    if score ≥ 70 ∧ missing_critical.length = 0 then
      (true, "This resume is ready to submit. Further changes are optional optimizations, not requirements.")
    else if score ≥ 55 ∧ missing_critical.length ≤ 1 then
      (true, "This resume can be submitted. Consider the suggested improvements to strengthen your application.")
    else
      (false, "Address the critical gaps before submitting to maximize your chances.")
  { hiring_readiness := hiring.1
    hiring_readiness_summary := hiring.2
    ats_status := ats.1
    ats_details := ats.2.1
    ats_summary := ats.2.2
    search_visibility := search.1
    searchable_terms := searchable_terms
    search_summary := search.2
    alignment_score := score
    alignment_strengths := alignment_strengths
    alignment_refinements := alignment_refinements
    human_readability_stars := readability.1
    human_readability_notes := readability.2
    ready_to_submit := verdict.1
    verdict_message := verdict.2 }

structure Gap where
  requirement : Option String
  suggestion : Option String
deriving DecidableEq

/-- One optimization plan item; dict keys that some items omit, or whose
value can be None, are Option fields. -/
structure PlanItem where
  type : String
  category : String
  title : String
  description : Option String
  rewrite_suggestion : Option String
  potential_impact : String
  ats_impact : String
deriving DecidableEq

/-- Python slicing s[:n]. -/
def pyStrTake (s : String) (n : ℕ) : String := String.mk (s.toList.take n)

/-- The gap lookup: first gap whose requirement contains the skill,
case-insensitively. -/
def findGap (gaps : List Gap) (skill : String) : Option Gap :=
  gaps.find? (fun g => strContains (pyLower (g.requirement.getD "")) (pyLower skill))

set_option linter.unusedVariables false in
/-- _generate_rewrite_suggestion (its base_suggestion local is dead code in
the source; the gap parameter is therefore unused). -/
def generateRewriteSuggestion (skill : String) (gap : Option Gap) : String :=
  let skill_lower := pyLower skill
  if ["certified", "certification", "pmp", "aws", "cpa"].any
      (fun w => strContains skill_lower w) then
    "Certifications section: \"" ++ skill ++ "\" | If in progress: \"" ++ skill ++
      " (Expected [Month Year])\""
  else if ["agile", "scrum", "methodology", "framework"].any
      (fun w => strContains skill_lower w) then
    "Experience: \"Applied " ++ skill ++
      " principles to [project/initiative], improving [metric] by [X]%\""
  else if ["jira", "confluence", "git", "docker", "kubernetes"].any
      (fun w => strContains skill_lower w) then
    "Skills: \"" ++ skill ++ "\" | Experience: \"Utilized " ++ skill ++
      " for [specific use case], resulting in [measurable outcome]\""
  else
    "Add to Skills section: \"" ++ skill ++ "\" | Add to Experience: \"Leveraged " ++
      skill ++ " to [achieve specific outcome]\""

def criticalItem (gaps : List Gap) (r : Req) : PlanItem :=
  let skill := r.text.getD "Unknown skill"
  let gap := findGap gaps skill
  { type := "critical"
    category := "missing_critical_skill"
    title := "Add Critical Skill: " ++ skill
    description := match gap with
      | some g => g.suggestion
      | none => some ("Add \"" ++ skill ++ "\" with specific examples and measurable outcomes")
    rewrite_suggestion := some (generateRewriteSuggestion skill gap)
    potential_impact := "+10-15 points"
    ats_impact := "HIGH - This keyword is likely required by ATS filters" }

/-- The high-priority item slices evidence with evidence[:50]; when the
evidence key is present with value None this is a TypeError. -/
def highItem (r : Req) : Except String PlanItem :=
  let skill := r.text.getD "Unknown skill"
  match r.evidence.getD (some "") with
  | none => Except.error "TypeError: NoneType object is not subscriptable"
  | some evidence => Except.ok
    { type := "high"
      category := "strengthen_match"
      title := "Strengthen: " ++ skill
      description := some ("Currently inferred from \"" ++ pyStrTake evidence 50 ++
        "...\" - make explicit")
      rewrite_suggestion := some ("Add \"" ++ skill ++ "\" explicitly: \"Utilized " ++
        skill ++ " to [specific achievement with metrics]\"")
      potential_impact := "+5-8 points"
      ats_impact := "MEDIUM - Explicit keywords score higher than inferred" }

def mediumItem (gaps : List Gap) (r : Req) : PlanItem :=
  let skill := r.text.getD "Unknown skill"
  let gap := findGap gaps skill
  { type := "medium"
    category := "missing_preferred_skill"
    title := "Consider Adding: " ++ skill
    description := match gap with
      | some g => g.suggestion
      | none => some ("Add \"" ++ skill ++ "\" if you have relevant experience")
    rewrite_suggestion := none
    potential_impact := "+4-6 points"
    ats_impact := "LOW-MEDIUM - Preferred but not required" }

def quantificationItem : PlanItem :=
  { type := "medium"
    category := "quantification"
    title := "Add Quantified Achievements"
    description := some "Include specific metrics: percentages, dollar amounts, time saved, team sizes"
    rewrite_suggestion := some "Change \"Improved sales\" → \"Increased sales by 35% ($2.1M) in Q3 2024\""
    potential_impact := "+3-5 points + stronger impression"
    ats_impact := "LOW - But critical for human reviewers" }

def standOutItem : PlanItem :=
  { type := "low"
    category := "enhancement"
    title := "Stand Out from Competition"
    description := some "Your skills match well. Focus on unique achievements and impact stories."
    rewrite_suggestion := some "Lead each bullet with a measurable outcome, not a task description"
    potential_impact := "Differentiation from other qualified candidates"
    ats_impact := "N/A - For human reviewer impact" }

def bonusSkillsItem (missing_tier3 : List Req) : PlanItem :=
  let bonus_skills := (missing_tier3.take 3).map (fun r => r.text.getD "")
  { type := "low"
    category := "bonus_skills"
    title := "Optional Bonus Skills"
    description := some ("Consider adding if applicable: " ++ String.intercalate ", " bonus_skills)
    rewrite_suggestion := none
    potential_impact := "+2-4 points"
    ats_impact := "LOW - Nice to have" }

def polishItem : PlanItem :=
  { type := "low"
    category := "polish"
    title := "Polish Your Resume"
    description := some "Ensure consistent formatting, check for typos, and verify all dates are accurate."
    rewrite_suggestion := none
    potential_impact := "Professional impression"
    ats_impact := "LOW - But important for final review" }

/-- The plan items generated before the never-empty fallback.  Note the plan
generator filters on the raw dict values (no tier/match_type defaulting here,
unlike calculate_score); the contextual_any list the source also builds is
dead code. -/
def planBody (score : ℤ) (gaps : List Gap) (requirements : List Req)
    (resume_text : String) : Except String (List PlanItem) := do
  let missing_tier1 := requirements.filter
    (fun r => r.tier == some 1 && r.match_type == some "NONE")
  let contextual_tier1 := requirements.filter
    (fun r => r.tier == some 1 && r.match_type == some "CONTEXTUAL")
  let missing_tier2 := requirements.filter
    (fun r => r.tier == some 2 && r.match_type == some "NONE")
  let criticalItems := missing_tier1.map (criticalItem gaps)
  let highItems ← contextual_tier1.mapM highItem
  let mediumItems := (missing_tier2.take 3).map (mediumItem gaps)
  let hasQuant := if resume_text = "" then true
    else (getQualityDetails resume_text).has_quantified_achievements
  let quantItems := if hasQuant then [] else [quantificationItem]
  let enhancementItems :=
    if score ≥ 85 then
      let missing_tier3 := requirements.filter
        (fun r => r.tier == some 3 && r.match_type == some "NONE")
      [standOutItem] ++ (if missing_tier3 ≠ [] then [bonusSkillsItem missing_tier3] else [])
    else []
  pure (criticalItems ++ highItems ++ mediumItems ++ quantItems ++ enhancementItems)

/-- generate_optimization_plan: the plan body followed by the never-empty
fallback. -/
def generate_optimization_plan (score : ℤ) (gaps : List Gap)
    (requirements : List Req) (resume_text : String) :
    Except String (List PlanItem) := do
  let plan ← planBody score gaps requirements resume_text
  pure (if plan = [] then [polishItem] else plan)

/-! Characterizations of the requirement-loop fold as filters, counts and
sums over the requirement list. -/

def textOf (r : Req) : String := r.text.getD ""

/-- A requirement that the loop adds to missing_critical. -/
def isMissingCrit (r : Req) : Bool := decide (effTier r = 1 ∧ effMT r = "NONE")

/-- A requirement that the loop adds to matched_critical. -/
def isMatchedCrit (r : Req) : Bool := decide (effTier r = 1 ∧ effMT r ≠ "NONE")

/-- A requirement that the loop adds to weak_matches. -/
def isWeak (r : Req) : Bool :=
  decide ((effTier r = 1 ∨ effTier r = 2) ∧ effMT r = "CONTEXTUAL")

def isTier1 (r : Req) : Bool := decide (effTier r = 1)

lemma effTier_cases (r : Req) : effTier r = 1 ∨ effTier r = 2 ∨ effTier r = 3 := by
  unfold effTier
  cases r.tier with
  | none => simp
  | some t =>
    by_cases h : t = 1 ∨ t = 2 ∨ t = 3
    · simp [h]
    · simp [h]

lemma foldl_scanStep_missing (reqs : List Req) (s : ScanState) :
    (reqs.foldl scanStep s).missing_critical =
      s.missing_critical ++ (reqs.filter isMissingCrit).map textOf := by
  induction reqs generalizing s with
  | nil => simp
  | cons r rs ih =>
    simp only [List.foldl_cons, ih, List.filter_cons]
    by_cases h : effTier r = 1 ∧ effMT r = "NONE"
    · simp [scanStep, isMissingCrit, textOf, h]
    · simp [scanStep, isMissingCrit, textOf, h]

lemma foldl_scanStep_matched (reqs : List Req) (s : ScanState) :
    (reqs.foldl scanStep s).matched_critical =
      s.matched_critical ++ (reqs.filter isMatchedCrit).map textOf := by
  induction reqs generalizing s with
  | nil => simp
  | cons r rs ih =>
    simp only [List.foldl_cons, ih, List.filter_cons]
    by_cases h : effTier r = 1 ∧ effMT r ≠ "NONE"
    · simp [scanStep, isMatchedCrit, textOf, h]
    · simp [scanStep, isMatchedCrit, textOf, h]

lemma foldl_scanStep_weak (reqs : List Req) (s : ScanState) :
    (reqs.foldl scanStep s).weak_matches =
      s.weak_matches ++ (reqs.filter isWeak).map textOf := by
  induction reqs generalizing s with
  | nil => simp
  | cons r rs ih =>
    simp only [List.foldl_cons, ih, List.filter_cons]
    by_cases h : (effTier r = 1 ∨ effTier r = 2) ∧ effMT r = "CONTEXTUAL"
    · simp [scanStep, isWeak, textOf, h]
    · simp [scanStep, isWeak, textOf, h]

lemma foldl_scanStep_tier1_missing (reqs : List Req) (s : ScanState) :
    (reqs.foldl scanStep s).tier1_missing =
      s.tier1_missing + reqs.countP isMissingCrit := by
  induction reqs generalizing s with
  | nil => simp
  | cons r rs ih =>
    simp only [List.foldl_cons, ih, List.countP_cons]
    by_cases h : effTier r = 1 ∧ effMT r = "NONE"
    · simp [scanStep, isMissingCrit, h]; omega
    · simp [scanStep, isMissingCrit, h]

lemma foldl_scanStep_tier1_none_count (reqs : List Req) (s : ScanState) :
    (reqs.foldl scanStep s).tier1_none_count =
      s.tier1_none_count + reqs.countP isMissingCrit := by
  induction reqs generalizing s with
  | nil => simp
  | cons r rs ih =>
    simp only [List.foldl_cons, ih, List.countP_cons]
    by_cases h : effTier r = 1 ∧ effMT r = "NONE"
    · simp [scanStep, isMissingCrit, h]; omega
    · simp [scanStep, isMissingCrit, h]

lemma t1_matched_scanStep (s : ScanState) (r : Req) :
    (scanStep s r).t1.matched = s.t1.matched + (if isMatchedCrit r then 1 else 0) := by
  by_cases h1 : effTier r = 1
  · by_cases h2 : effMT r = "NONE" <;>
      simp [scanStep, stepTier, isMatchedCrit, h1, h2]
  · simp [scanStep, isMatchedCrit, h1]

lemma foldl_scanStep_t1_matched (reqs : List Req) (s : ScanState) :
    (reqs.foldl scanStep s).t1.matched = s.t1.matched + reqs.countP isMatchedCrit := by
  induction reqs generalizing s with
  | nil => simp
  | cons r rs ih =>
    simp only [List.foldl_cons, ih, List.countP_cons, t1_matched_scanStep]
    by_cases h : isMatchedCrit r
    · simp [h]; omega
    · simp [h]

lemma t1_total_scanStep (s : ScanState) (r : Req) :
    (scanStep s r).t1.total = s.t1.total + (if isTier1 r then 1 else 0) := by
  by_cases h1 : effTier r = 1 <;> simp [scanStep, stepTier, isTier1, h1]

lemma foldl_scanStep_t1_total (reqs : List Req) (s : ScanState) :
    (reqs.foldl scanStep s).t1.total = s.t1.total + reqs.countP isTier1 := by
  induction reqs generalizing s with
  | nil => simp
  | cons r rs ih =>
    simp only [List.foldl_cons, ih, List.countP_cons, t1_total_scanStep]
    by_cases h : isTier1 r
    · simp [h]; omega
    · simp [h]

lemma totalEarned_scanStep (s : ScanState) (r : Req) :
    totalEarned (scanStep s r) =
      totalEarned s + tierPoints (effTier r) * matchCredit (effMT r) := by
  rcases effTier_cases r with h | h | h <;>
    simp [totalEarned, scanStep, stepTier, h] <;> ring

lemma foldl_scanStep_totalEarned (reqs : List Req) (s : ScanState) :
    totalEarned (reqs.foldl scanStep s) =
      totalEarned s + (reqs.map (fun r => tierPoints (effTier r) * matchCredit (effMT r))).sum := by
  induction reqs generalizing s with
  | nil => simp
  | cons r rs ih =>
    simp only [List.foldl_cons, ih, totalEarned_scanStep, List.map_cons, List.sum_cons]
    ring

lemma totalPossible_scanStep (s : ScanState) (r : Req) :
    totalPossible (scanStep s r) = totalPossible s + tierPoints (effTier r) := by
  rcases effTier_cases r with h | h | h <;>
    simp [totalPossible, scanStep, stepTier, h] <;> ring

lemma foldl_scanStep_totalPossible (reqs : List Req) (s : ScanState) :
    totalPossible (reqs.foldl scanStep s) =
      totalPossible s + (reqs.map (fun r => tierPoints (effTier r))).sum := by
  induction reqs generalizing s with
  | nil => simp
  | cons r rs ih =>
    simp only [List.foldl_cons, ih, totalPossible_scanStep, List.map_cons, List.sum_cons]
    ring

lemma scanReqs_missing (reqs : List Req) :
    (scanReqs reqs).missing_critical = (reqs.filter isMissingCrit).map textOf := by
  simpa [ScanState.init] using foldl_scanStep_missing reqs ScanState.init

lemma scanReqs_matched (reqs : List Req) :
    (scanReqs reqs).matched_critical = (reqs.filter isMatchedCrit).map textOf := by
  simpa [ScanState.init] using foldl_scanStep_matched reqs ScanState.init

lemma scanReqs_weak (reqs : List Req) :
    (scanReqs reqs).weak_matches = (reqs.filter isWeak).map textOf := by
  simpa [ScanState.init] using foldl_scanStep_weak reqs ScanState.init

lemma scanReqs_tier1_missing (reqs : List Req) :
    (scanReqs reqs).tier1_missing = reqs.countP isMissingCrit := by
  simpa [ScanState.init] using foldl_scanStep_tier1_missing reqs ScanState.init

lemma scanReqs_tier1_none_count (reqs : List Req) :
    (scanReqs reqs).tier1_none_count = reqs.countP isMissingCrit := by
  simpa [ScanState.init] using foldl_scanStep_tier1_none_count reqs ScanState.init

lemma scanReqs_t1_matched (reqs : List Req) :
    (scanReqs reqs).t1.matched = reqs.countP isMatchedCrit := by
  simpa [ScanState.init, TierAcc.init] using foldl_scanStep_t1_matched reqs ScanState.init

lemma scanReqs_t1_total (reqs : List Req) :
    (scanReqs reqs).t1.total = reqs.countP isTier1 := by
  simpa [ScanState.init, TierAcc.init] using foldl_scanStep_t1_total reqs ScanState.init

lemma scanReqs_totalEarned (reqs : List Req) :
    totalEarned (scanReqs reqs) =
      (reqs.map (fun r => tierPoints (effTier r) * matchCredit (effMT r))).sum := by
  simpa [ScanState.init, TierAcc.init, totalEarned] using
    foldl_scanStep_totalEarned reqs ScanState.init

lemma scanReqs_totalPossible (reqs : List Req) :
    totalPossible (scanReqs reqs) = (reqs.map (fun r => tierPoints (effTier r))).sum := by
  simpa [ScanState.init, TierAcc.init, totalPossible] using
    foldl_scanStep_totalPossible reqs ScanState.init

lemma countP_missing_add_matched (reqs : List Req) :
    reqs.countP isMissingCrit + reqs.countP isMatchedCrit = reqs.countP isTier1 := by
  induction reqs with
  | nil => simp
  | cons r rs ih =>
    simp only [List.countP_cons]
    by_cases h1 : effTier r = 1
    · by_cases h2 : effMT r = "NONE" <;>
        simp [isMissingCrit, isMatchedCrit, isTier1, h1, h2] <;> omega
    · simp [isMissingCrit, isMatchedCrit, isTier1, h1]; omega

/-! Projection lemmas for calculate_score and basic cap facts. -/

lemma calculate_score_score (reqs : List Req) (ry cy : ℤ) (sr : Bool) (sig : ℤ)
    (t : String) :
    (calculate_score reqs ry cy sr sig t).score =
      pyRound (applyCaps (rawScoreQ reqs ry cy sr sig) (scanReqs reqs).t1.total
        (scanReqs reqs).tier1_none_count (scanReqs reqs).tier1_missing
        (experienceRatio ry cy)).1 := rfl

lemma calculate_score_caps_applied (reqs : List Req) (ry cy : ℤ) (sr : Bool) (sig : ℤ)
    (t : String) :
    (calculate_score reqs ry cy sr sig t).caps_applied =
      (applyCaps (rawScoreQ reqs ry cy sr sig) (scanReqs reqs).t1.total
        (scanReqs reqs).tier1_none_count (scanReqs reqs).tier1_missing
        (experienceRatio ry cy)).2 := rfl

lemma calculate_score_raw_score (reqs : List Req) (ry cy : ℤ) (sr : Bool) (sig : ℤ)
    (t : String) :
    (calculate_score reqs ry cy sr sig t).raw_score =
      pyRound1 (rawScoreQ reqs ry cy sr sig) := rfl

lemma calculate_score_interpretation (reqs : List Req) (ry cy : ℤ) (sr : Bool)
    (sig : ℤ) (t : String) :
    (calculate_score reqs ry cy sr sig t).interpretation =
      interpretationOf (calculate_score reqs ry cy sr sig t).score := rfl

lemma calculate_score_missing (reqs : List Req) (ry cy : ℤ) (sr : Bool) (sig : ℤ)
    (t : String) :
    (calculate_score reqs ry cy sr sig t).missing_critical =
      (scanReqs reqs).missing_critical := rfl

lemma calculate_score_matched (reqs : List Req) (ry cy : ℤ) (sr : Bool) (sig : ℤ)
    (t : String) :
    (calculate_score reqs ry cy sr sig t).matched_critical =
      (scanReqs reqs).matched_critical := rfl

lemma calculate_score_weak (reqs : List Req) (ry cy : ℤ) (sr : Bool) (sig : ℤ)
    (t : String) :
    (calculate_score reqs ry cy sr sig t).weak_matches =
      (scanReqs reqs).weak_matches := rfl

lemma calculate_score_tier1_matched_count (reqs : List Req) (ry cy : ℤ) (sr : Bool)
    (sig : ℤ) (t : String) :
    (calculate_score reqs ry cy sr sig t).tier1.matched_count =
      (scanReqs reqs).t1.matched := rfl

lemma calculate_score_tier1_total_count (reqs : List Req) (ry cy : ℤ) (sr : Bool)
    (sig : ℤ) (t : String) :
    (calculate_score reqs ry cy sr sig t).tier1.total_count =
      (scanReqs reqs).t1.total := rfl

/-- Unfolding the score component of applyCaps past the pair construction. -/
lemma applyCaps_fst (raw : ℚ) (total nc m : ℕ) (ratio : ℚ) :
    (applyCaps raw total nc m ratio).1 =
      (if ratio < 1/2 then
        min (if 0 < total ∧ nc = total then min raw 30
             else if 3 ≤ m then min raw 45
             else if 2 ≤ m then min raw 60
             else if 1 ≤ m then min raw 75 else raw) 55
       else
        (if 0 < total ∧ nc = total then min raw 30
         else if 3 ≤ m then min raw 45
         else if 2 ≤ m then min raw 60
         else if 1 ≤ m then min raw 75 else raw)) := by
  unfold applyCaps
  split_ifs <;> rfl

lemma applyCaps_fst_le_raw (raw : ℚ) (total nc m : ℕ) (ratio : ℚ) :
    (applyCaps raw total nc m ratio).1 ≤ raw := by
  rw [applyCaps_fst]
  split_ifs <;>
    first
      | exact le_rfl
      | exact min_le_left _ _
      | exact le_trans (min_le_left _ _) (min_le_left _ _)

lemma applyCaps_fst_nonneg {raw : ℚ} (h : 0 ≤ raw) (total nc m : ℕ) (ratio : ℚ) :
    0 ≤ (applyCaps raw total nc m ratio).1 := by
  rw [applyCaps_fst]
  split_ifs <;>
    first
      | exact h
      | exact le_min h (by norm_num)
      | exact le_min (le_min h (by norm_num)) (by norm_num)

lemma rawScoreQ_nonneg (reqs : List Req) (ry cy : ℤ) (sr : Bool) (sig : ℤ) :
    0 ≤ rawScoreQ reqs ry cy sr sig := by
  unfold rawScoreQ
  exact le_max_left _ _

lemma rawScoreQ_le_100 (reqs : List Req) (ry cy : ℤ) (sr : Bool) (sig : ℤ) :
    rawScoreQ reqs ry cy sr sig ≤ 100 := by
  unfold rawScoreQ
  exact max_le (by norm_num) (min_le_left _ _)

lemma countP_missing_eq_tier1_of_all_none {reqs : List Req}
    (h : ∀ r ∈ reqs, effTier r = 1 → effMT r = "NONE") :
    reqs.countP isMissingCrit = reqs.countP isTier1 := by
  induction reqs with
  | nil => simp
  | cons r rs ih =>
    simp only [List.countP_cons]
    have hr := h r (by simp)
    have ihh := ih (fun x hx => h x (by simp [hx]))
    by_cases h1 : effTier r = 1
    · simp [isMissingCrit, isTier1, h1, hr h1, ihh]
    · simp [isMissingCrit, isTier1, h1, ihh]

/-- Unfolding the caps_applied component of applyCaps past the pair
construction. -/
lemma applyCaps_snd (raw : ℚ) (total nc m : ℕ) (ratio : ℚ) :
    (applyCaps raw total nc m ratio).2 =
      (if ratio < 1/2 then
        (if capsMentionExperience
            (if 0 < total ∧ nc = total then ["No critical requirements matched"]
             else if 3 ≤ m then ["Missing " ++ toString m ++ "+ critical requirements"]
             else if 2 ≤ m then ["Missing " ++ toString m ++ " critical requirements"]
             else if 1 ≤ m then ["Missing " ++ toString m ++ " critical requirement(s)"]
             else []) then
          (if 0 < total ∧ nc = total then ["No critical requirements matched"]
           else if 3 ≤ m then ["Missing " ++ toString m ++ "+ critical requirements"]
           else if 2 ≤ m then ["Missing " ++ toString m ++ " critical requirements"]
           else if 1 ≤ m then ["Missing " ++ toString m ++ " critical requirement(s)"]
           else [])
         else
          (if 0 < total ∧ nc = total then ["No critical requirements matched"]
           else if 3 ≤ m then ["Missing " ++ toString m ++ "+ critical requirements"]
           else if 2 ≤ m then ["Missing " ++ toString m ++ " critical requirements"]
           else if 1 ≤ m then ["Missing " ++ toString m ++ " critical requirement(s)"]
           else []) ++ ["Experience below 50% of requirement"])
       else
        (if 0 < total ∧ nc = total then ["No critical requirements matched"]
         else if 3 ≤ m then ["Missing " ++ toString m ++ "+ critical requirements"]
         else if 2 ≤ m then ["Missing " ++ toString m ++ " critical requirements"]
         else if 1 ≤ m then ["Missing " ++ toString m ++ " critical requirement(s)"]
         else [])) := by
  unfold applyCaps
  dsimp only
  split_ifs <;> rfl

lemma tierPoints_nonneg (t : ℤ) : 0 ≤ tierPoints t := by
  unfold tierPoints; split_ifs <;> norm_num

lemma countP_isMissing_le_isTier1 (reqs : List Req) :
    reqs.countP isMissingCrit ≤ reqs.countP isTier1 := by
  have := countP_missing_add_matched reqs
  omega

/-- Monotonicity of the cap stage: a not-larger raw score together with a
not-larger missing count (both counters move together) gives a not-larger
capped score, since smaller missing counts select weaker caps. -/
lemma applyCaps_fst_mono {raw raw2 : ℚ} {total m m2 : ℕ} {ratio : ℚ}
    (hr : raw ≤ raw2) (hm : m2 ≤ m) (hmt : m ≤ total) :
    (applyCaps raw total m m ratio).1 ≤ (applyCaps raw2 total m2 m2 ratio).1 := by
  rw [applyCaps_fst, applyCaps_fst]
  have key : (if 0 < total ∧ m = total then min raw 30
      else if 3 ≤ m then min raw 45
      else if 2 ≤ m then min raw 60
      else if 1 ≤ m then min raw 75
      else raw) ≤
      (if 0 < total ∧ m2 = total then min raw2 30
      else if 3 ≤ m2 then min raw2 45
      else if 2 ≤ m2 then min raw2 60
      else if 1 ≤ m2 then min raw2 75
      else raw2) := by
    split_ifs <;>
      first
        | omega
        | exact hr
        | exact le_trans (min_le_left _ _) hr
        | exact le_min (le_trans (min_le_left _ _) hr)
            (le_trans (min_le_right _ _) (by norm_num))
  by_cases hc : ratio < 1/2
  · rw [if_pos hc, if_pos hc]
    exact min_le_min key le_rfl
  · rw [if_neg hc, if_neg hc]
    exact key

/-- Monotonicity of the clamped arithmetic term in the earned points. -/
lemma clampBase_mono {e1 e2 p adj : ℚ} (hp : 0 ≤ p) (he : e1 ≤ e2) :
    max 0 (min 100 ((if p = 0 then 0 else e1 / p * 100) + adj)) ≤
    max 0 (min 100 ((if p = 0 then 0 else e2 / p * 100) + adj)) := by
  refine max_le_max le_rfl (min_le_min le_rfl (add_le_add_right ?_ adj))
  by_cases hp0 : p = 0
  · simp [hp0]
  · have hppos : 0 < p := lt_of_le_of_ne hp (Ne.symm hp0)
    simp only [hp0, if_false]
    have h1 : e1 / p ≤ e2 / p := (div_le_div_iff_of_pos_right hppos).mpr he
    exact mul_le_mul_of_nonneg_right h1 (by norm_num)

/-- rawScoreQ written out over the requirement list. -/
lemma rawScoreQ_eq (reqs : List Req) (ry cy : ℤ) (sr : Bool) (sig : ℤ) :
    rawScoreQ reqs ry cy sr sig =
      max 0 (min 100 ((if (reqs.map (fun r => tierPoints (effTier r))).sum = 0 then 0
        else (reqs.map (fun r => tierPoints (effTier r) * matchCredit (effMT r))).sum /
          (reqs.map (fun r => tierPoints (effTier r))).sum * 100) +
        (experienceAdjustment (experienceRatio ry cy) sr sig : ℚ))) := by
  simp only [rawScoreQ]
  rw [scanReqs_totalEarned, scanReqs_totalPossible]

lemma rawScoreQ_mono_NONE_EXACT (pre post : List Req) (txt : Option String)
    (tier : Option ℤ) (ev : Option (Option String)) (ry cy : ℤ) (sr : Bool)
    (sig : ℤ) :
    rawScoreQ (pre ++ ⟨txt, tier, some "NONE", ev⟩ :: post) ry cy sr sig ≤
    rawScoreQ (pre ++ ⟨txt, tier, some "EXACT", ev⟩ :: post) ry cy sr sig := by
  have heq : effTier ⟨txt, tier, some "EXACT", ev⟩ = effTier ⟨txt, tier, some "NONE", ev⟩ := rfl
  rw [rawScoreQ_eq, rawScoreQ_eq]
  simp only [List.map_append, List.map_cons, List.sum_append, List.sum_cons, heq]
  apply clampBase_mono
  · refine add_nonneg (List.sum_nonneg ?_) (add_nonneg (tierPoints_nonneg _) (List.sum_nonneg ?_)) <;>
      · intro x hx
        simp only [List.mem_map] at hx
        obtain ⟨r, _, rfl⟩ := hx
        exact tierPoints_nonneg _
  · refine add_le_add le_rfl (add_le_add ?_ le_rfl)
    have h1 : effMT (⟨txt, tier, some "NONE", ev⟩ : Req) = "NONE" := rfl
    have h2 : effMT (⟨txt, tier, some "EXACT", ev⟩ : Req) = "EXACT" := rfl
    rw [h1, h2, matchCredit_NONE, matchCredit_EXACT, mul_zero, mul_one]
    exact tierPoints_nonneg _

/-! Claim theorems. -/

/-- C1 counterexample: with one Tier-1 EXACT and one Tier-2 VARIANT
requirement (earned 22.2 of 23 points, no caps), raw_score is 2220/23 (the
reported one-decimal raw_score is 96.5) while final rounding yields 97, so
final_score exceeds raw_score. -/
theorem C1_counterexample :
    (calculate_score [⟨some "Python", some 1, some "EXACT", none⟩,
        ⟨some "CI/CD", some 2, some "VARIANT", none⟩] 1 1 false 0 "").score = 97 ∧
    (calculate_score [⟨some "Python", some 1, some "EXACT", none⟩,
        ⟨some "CI/CD", some 2, some "VARIANT", none⟩] 1 1 false 0 "").raw_score = 193/2 ∧
    ¬ (((calculate_score [⟨some "Python", some 1, some "EXACT", none⟩,
        ⟨some "CI/CD", some 2, some "VARIANT", none⟩] 1 1 false 0 "").score : ℚ) ≤
      (calculate_score [⟨some "Python", some 1, some "EXACT", none⟩,
        ⟨some "CI/CD", some 2, some "VARIANT", none⟩] 1 1 false 0 "").raw_score) := by
  have hraw : rawScoreQ [⟨some "Python", some 1, some "EXACT", none⟩,
      ⟨some "CI/CD", some 2, some "VARIANT", none⟩] 1 1 false 0 = 2220/23 := by
    unfold rawScoreQ totalEarned totalPossible
    norm_num [scanReqs, scanStep, stepTier, ScanState.init, TierAcc.init, effTier, effMT,
      matchCredit_EXACT, matchCredit_VARIANT, tierPoints_one, tierPoints_two,
      experienceRatio, experienceAdjustment, min_def, max_def]
  have hsc : (calculate_score [⟨some "Python", some 1, some "EXACT", none⟩,
      ⟨some "CI/CD", some 2, some "VARIANT", none⟩] 1 1 false 0 "").score = 97 := by
    rw [calculate_score_score, hraw]
    have h1 : (scanReqs [⟨some "Python", some 1, some "EXACT", none⟩,
        ⟨some "CI/CD", some 2, some "VARIANT", none⟩]).t1.total = 1 := rfl
    have h2 : (scanReqs [⟨some "Python", some 1, some "EXACT", none⟩,
        ⟨some "CI/CD", some 2, some "VARIANT", none⟩]).tier1_none_count = 0 := rfl
    have h3 : (scanReqs [⟨some "Python", some 1, some "EXACT", none⟩,
        ⟨some "CI/CD", some 2, some "VARIANT", none⟩]).tier1_missing = 0 := rfl
    rw [h1, h2, h3, applyCaps_fst]
    norm_num [experienceRatio]
    have : pyRound (2220/23) = 96 + 1 :=
      pyRound_eq_high (by norm_num) (by norm_num)
    rw [this]
    norm_num
  have hrw : (calculate_score [⟨some "Python", some 1, some "EXACT", none⟩,
      ⟨some "CI/CD", some 2, some "VARIANT", none⟩] 1 1 false 0 "").raw_score = 193/2 := by
    rw [calculate_score_raw_score, hraw]
    unfold pyRound1
    have : pyRound (2220/23 * 10) = 965 := by
      rw [show (2220/23 * 10 : ℚ) = 22200/23 by norm_num]
      exact pyRound_eq_low (by norm_num) (by norm_num)
    rw [this]
    norm_num
  refine ⟨hsc, hrw, ?_⟩
  rw [hsc, hrw]
  norm_num

/-- C1 (amended): the hard caps themselves only lower the score - the capped
score before rounding never exceeds the clamped raw score - and the final
integer rounding can then raise it by at most one half, so final_score is at
most raw_score + 1/2. -/
theorem C1_caps_only_lower_amended (reqs : List Req) (ry cy : ℤ) (sr : Bool)
    (sig : ℤ) (t : String) :
    (applyCaps (rawScoreQ reqs ry cy sr sig) (scanReqs reqs).t1.total
        (scanReqs reqs).tier1_none_count (scanReqs reqs).tier1_missing
        (experienceRatio ry cy)).1 ≤ rawScoreQ reqs ry cy sr sig ∧
    ((calculate_score reqs ry cy sr sig t).score : ℚ) ≤
      rawScoreQ reqs ry cy sr sig + 1/2 := by
  constructor
  · exact applyCaps_fst_le_raw _ _ _ _ _
  · rw [calculate_score_score]
    calc (pyRound (applyCaps (rawScoreQ reqs ry cy sr sig) (scanReqs reqs).t1.total
          (scanReqs reqs).tier1_none_count (scanReqs reqs).tier1_missing
          (experienceRatio ry cy)).1 : ℚ) ≤
        (applyCaps (rawScoreQ reqs ry cy sr sig) (scanReqs reqs).t1.total
          (scanReqs reqs).tier1_none_count (scanReqs reqs).tier1_missing
          (experienceRatio ry cy)).1 + 1/2 := pyRound_le_add_half _
      _ ≤ rawScoreQ reqs ry cy sr sig + 1/2 := by
          have := applyCaps_fst_le_raw (rawScoreQ reqs ry cy sr sig)
            (scanReqs reqs).t1.total (scanReqs reqs).tier1_none_count
            (scanReqs reqs).tier1_missing (experienceRatio ry cy)
          linarith

/-- C2 counterexample: a Tier-1 requirement with the invalid match_type FOO
is scored with credit 0 but is counted as matched: tier1.matched_count and
missing_critical (and matched_critical) differ from the same requirement with
match_type NONE, so invalid match_type is not treated exactly as NONE. -/
theorem C2_counterexample :
    (calculate_score [⟨some "X", some 1, some "FOO", none⟩] 1 1 false 0 "").tier1.matched_count ≠
      (calculate_score [⟨some "X", some 1, some "NONE", none⟩] 1 1 false 0 "").tier1.matched_count ∧
    (calculate_score [⟨some "X", some 1, some "FOO", none⟩] 1 1 false 0 "").missing_critical ≠
      (calculate_score [⟨some "X", some 1, some "NONE", none⟩] 1 1 false 0 "").missing_critical ∧
    (calculate_score [⟨some "X", some 1, some "FOO", none⟩] 1 1 false 0 "").matched_critical ≠
      (calculate_score [⟨some "X", some 1, some "NONE", none⟩] 1 1 false 0 "").matched_critical := by
  decide

/-- C2 (amended): an absent tier or match_type defaults to 2 resp. NONE, and
calculate_score never raises; an invalid (non-enum) match_type earns zero
credit exactly like NONE, but it counts as a match: the Tier-1 matched count
is one higher than with NONE, and the requirement text goes to
matched_critical instead of missing_critical. -/
theorem C2_defaulting_amended (pre post : List Req) (r : Req) (ry cy : ℤ)
    (sr : Bool) (sig : ℤ) (t : String)
    (htier : effTier r = 1)
    (h1 : effMT r ≠ "EXACT") (h2 : effMT r ≠ "VARIANT")
    (h3 : effMT r ≠ "CONTEXTUAL") (h4 : effMT r ≠ "NONE") :
    matchCredit (effMT r) = 0 ∧
    (calculate_score (pre ++ r :: post) ry cy sr sig t).tier1.matched_count =
      (calculate_score (pre ++ { r with match_type := some "NONE" } :: post)
        ry cy sr sig t).tier1.matched_count + 1 ∧
    (calculate_score (pre ++ r :: post) ry cy sr sig t).missing_critical =
      (pre.filter isMissingCrit).map textOf ++ (post.filter isMissingCrit).map textOf ∧
    (calculate_score (pre ++ { r with match_type := some "NONE" } :: post)
        ry cy sr sig t).missing_critical =
      (pre.filter isMissingCrit).map textOf ++ textOf r ::
        (post.filter isMissingCrit).map textOf ∧
    (calculate_score (pre ++ r :: post) ry cy sr sig t).matched_critical =
      (pre.filter isMatchedCrit).map textOf ++ textOf r ::
        (post.filter isMatchedCrit).map textOf ∧
    (calculate_score (pre ++ { r with match_type := some "NONE" } :: post)
        ry cy sr sig t).matched_critical =
      (pre.filter isMatchedCrit).map textOf ++ (post.filter isMatchedCrit).map textOf ∧
    effTier ⟨r.text, none, r.match_type, r.evidence⟩ = 2 ∧
    (∀ z : ℤ, z ≠ 1 → z ≠ 2 → z ≠ 3 →
      effTier ⟨r.text, some z, r.match_type, r.evidence⟩ = 2) ∧
    effMT ⟨r.text, r.tier, none, r.evidence⟩ = "NONE" := by
  have hTierN : effTier { r with match_type := some "NONE" } = effTier r := rfl
  have hMTN : effMT { r with match_type := some "NONE" } = "NONE" := rfl
  have hMissR : isMissingCrit r = false := by
    simp [isMissingCrit, h4]
  have hMissN : isMissingCrit { r with match_type := some "NONE" } = true := by
    simp [isMissingCrit, hTierN, hMTN, htier]
  have hMatchR : isMatchedCrit r = true := by
    simp [isMatchedCrit, htier, h4]
  have hMatchN : isMatchedCrit { r with match_type := some "NONE" } = false := by
    simp [isMatchedCrit, hTierN, hMTN]
  refine ⟨?_, ?_, ?_, ?_, ?_, ?_, rfl, ?_, rfl⟩
  · simp [matchCredit, h1, h2, h3, h4]
  · rw [calculate_score_tier1_matched_count, calculate_score_tier1_matched_count,
      scanReqs_t1_matched, scanReqs_t1_matched, List.countP_append, List.countP_append,
      List.countP_cons, List.countP_cons, hMatchR, hMatchN]
    simp
    omega
  · rw [calculate_score_missing, scanReqs_missing, List.filter_append,
      List.filter_cons, hMissR]
    simp
  · rw [calculate_score_missing, scanReqs_missing, List.filter_append,
      List.filter_cons, hMissN]
    have : textOf { r with match_type := some "NONE" } = textOf r := rfl
    simp [this]
  · rw [calculate_score_matched, scanReqs_matched, List.filter_append,
      List.filter_cons, hMatchR]
    simp
  · rw [calculate_score_matched, scanReqs_matched, List.filter_append,
      List.filter_cons, hMatchN]
    simp
  · intro z hz1 hz2 hz3
    simp [effTier, hz1, hz2, hz3]

/-- C2 witness: concrete instance of the amended theorem for a single Tier-1
requirement with match_type FOO. -/
theorem C2_defaulting_amended_witness :
    matchCredit (effMT ⟨some "X", some 1, some "FOO", none⟩) = 0 ∧
    (calculate_score [⟨some "X", some 1, some "FOO", none⟩] 1 1 false 0 "").tier1.matched_count =
      (calculate_score [⟨some "X", some 1, some "NONE", none⟩] 1 1 false 0 "").tier1.matched_count + 1 := by
  have h := C2_defaulting_amended [] [] ⟨some "X", some 1, some "FOO", none⟩ 1 1 false 0 ""
    (by decide) (by decide) (by decide) (by decide) (by decide)
  exact ⟨h.1, h.2.1⟩

/-- C3: for every input the final score is an integer (it is the ℤ-valued
score field) between 0 and 100 inclusive. -/
theorem C3_score_bounds (reqs : List Req) (ry cy : ℤ) (sr : Bool) (sig : ℤ)
    (t : String) :
    0 ≤ (calculate_score reqs ry cy sr sig t).score ∧
    (calculate_score reqs ry cy sr sig t).score ≤ 100 := by
  rw [calculate_score_score]
  constructor
  · exact pyRound_nonneg (applyCaps_fst_nonneg (rawScoreQ_nonneg reqs ry cy sr sig) _ _ _ _)
  · refine pyRound_le_of_le_intCast (n := 100) ?_
    have h1 := applyCaps_fst_le_raw (rawScoreQ reqs ry cy sr sig) (scanReqs reqs).t1.total
      (scanReqs reqs).tier1_none_count (scanReqs reqs).tier1_missing (experienceRatio ry cy)
    have h2 := rawScoreQ_le_100 reqs ry cy sr sig
    push_cast
    linarith

/-- C8: the Scenario-D input (one Tier-1 EXACT requirement, required 10
years, candidate 2 years, no seniority flags) yields raw_score 85, the
experience cap binds giving final score 55, interpretation BORDERLINE, and
the experience-cap reason in caps_applied. -/
theorem C8_scenario_D :
    (calculate_score [⟨some "Python", some 1, some "EXACT", none⟩] 10 2 false 0 "").raw_score = 85 ∧
    (calculate_score [⟨some "Python", some 1, some "EXACT", none⟩] 10 2 false 0 "").score = 55 ∧
    (calculate_score [⟨some "Python", some 1, some "EXACT", none⟩] 10 2 false 0 "").interpretation = "BORDERLINE" ∧
    "Experience below 50% of requirement" ∈
      (calculate_score [⟨some "Python", some 1, some "EXACT", none⟩] 10 2 false 0 "").caps_applied := by
  have hraw : rawScoreQ [⟨some "Python", some 1, some "EXACT", none⟩] 10 2 false 0 = 85 := by
    unfold rawScoreQ totalEarned totalPossible
    norm_num [scanReqs, scanStep, stepTier, ScanState.init, TierAcc.init, effTier, effMT,
      matchCredit_EXACT, matchCredit_VARIANT, tierPoints_one, tierPoints_two,
      experienceRatio, experienceAdjustment, min_def, max_def]
  have h1 : (scanReqs [⟨some "Python", some 1, some "EXACT", none⟩]).t1.total = 1 := rfl
  have h2 : (scanReqs [⟨some "Python", some 1, some "EXACT", none⟩]).tier1_none_count = 0 := rfl
  have h3 : (scanReqs [⟨some "Python", some 1, some "EXACT", none⟩]).tier1_missing = 0 := rfl
  have hsc : (calculate_score [⟨some "Python", some 1, some "EXACT", none⟩] 10 2 false 0 "").score = 55 := by
    rw [calculate_score_score, hraw, h1, h2, h3, applyCaps_fst]
    norm_num [experienceRatio, min_def]
    exact pyRound_eq_low (by norm_num) (by norm_num)
  refine ⟨?_, hsc, ?_, ?_⟩
  · rw [calculate_score_raw_score, hraw]
    unfold pyRound1
    have : pyRound ((85 : ℚ) * 10) = 850 := by
      rw [show ((85 : ℚ) * 10) = ((850 : ℤ) : ℚ) by norm_num]
      exact pyRound_intCast 850
    rw [this]
    norm_num
  · rw [calculate_score_interpretation, hsc]
    norm_num [interpretationOf]
  · rw [calculate_score_caps_applied, hraw, h1, h2, h3]
    have hr : experienceRatio 10 2 = 1/5 := by norm_num [experienceRatio]
    rw [hr]
    norm_num [applyCaps, capsMentionExperience]

/-- C9: the score, raw_score, interpretation, caps_applied,
experience_adjustment, missing_critical, matched_critical, weak_matches and
percentile_estimate fields of calculate_score do not depend on resume_text
(only the dimensions breakdown reads it; the configured
no_quantified_achievements cap of 80 has no branch in the score path). -/
theorem C9_resume_text_independence (reqs : List Req) (ry cy : ℤ) (sr : Bool)
    (sig : ℤ) (ta tb : String) :
    (calculate_score reqs ry cy sr sig ta).score =
      (calculate_score reqs ry cy sr sig tb).score ∧
    (calculate_score reqs ry cy sr sig ta).raw_score =
      (calculate_score reqs ry cy sr sig tb).raw_score ∧
    (calculate_score reqs ry cy sr sig ta).interpretation =
      (calculate_score reqs ry cy sr sig tb).interpretation ∧
    (calculate_score reqs ry cy sr sig ta).caps_applied =
      (calculate_score reqs ry cy sr sig tb).caps_applied ∧
    (calculate_score reqs ry cy sr sig ta).experience_adjustment =
      (calculate_score reqs ry cy sr sig tb).experience_adjustment ∧
    (calculate_score reqs ry cy sr sig ta).missing_critical =
      (calculate_score reqs ry cy sr sig tb).missing_critical ∧
    (calculate_score reqs ry cy sr sig ta).matched_critical =
      (calculate_score reqs ry cy sr sig tb).matched_critical ∧
    (calculate_score reqs ry cy sr sig ta).weak_matches =
      (calculate_score reqs ry cy sr sig tb).weak_matches ∧
    (calculate_score reqs ry cy sr sig ta).percentile_estimate =
      (calculate_score reqs ry cy sr sig tb).percentile_estimate :=
  ⟨rfl, rfl, rfl, rfl, rfl, rfl, rfl, rfl, rfl⟩

/-- C6: ready_to_submit is true exactly when (score at least 70 and no
missing critical skills) or (score at least 55 and at most one missing
critical skill). -/
theorem C6_ready_to_submit_iff (score : ℤ) (ts : TierScores)
    (mc mat weak : List String) (ratio : ℚ) (t : String) :
    (generate_evaluation score ts mc mat weak ratio t).ready_to_submit = true ↔
      (score ≥ 70 ∧ mc.length = 0) ∨ (score ≥ 55 ∧ mc.length ≤ 1) := by
  have h : (generate_evaluation score ts mc mat weak ratio t).ready_to_submit =
      (if score ≥ 70 ∧ mc.length = 0 then
        (true, "This resume is ready to submit. Further changes are optional optimizations, not requirements.")
       else if score ≥ 55 ∧ mc.length ≤ 1 then
        (true, "This resume can be submitted. Consider the suggested improvements to strengthen your application.")
       else
        (false, "Address the critical gaps before submitting to maximize your chances.")).1 := rfl
  rw [h]
  split_ifs with hc1 hc2
  · simp [hc1]
  · simp [hc2]
  · constructor
    · intro hx
      simp at hx
    · rintro (h | h)
      · exact absurd h hc1
      · exact absurd h hc2

/-- C4: holding everything else fixed, changing one requirement's match_type
from NONE to EXACT never decreases the final score (equivalently, changing it
from EXACT to NONE never increases it): the earned points can only grow, the
Tier-1 missing counters can only shrink (selecting weaker caps), and rounding
is monotone. -/
theorem C4_none_to_exact_monotonic (pre post : List Req) (txt : Option String)
    (tier : Option ℤ) (ev : Option (Option String)) (ry cy : ℤ) (sr : Bool)
    (sig : ℤ) (t : String) :
    (calculate_score (pre ++ ⟨txt, tier, some "NONE", ev⟩ :: post) ry cy sr sig t).score ≤
    (calculate_score (pre ++ ⟨txt, tier, some "EXACT", ev⟩ :: post) ry cy sr sig t).score := by
  rw [calculate_score_score, calculate_score_score]
  apply pyRound_mono
  rw [scanReqs_t1_total, scanReqs_t1_total, scanReqs_tier1_none_count,
    scanReqs_tier1_none_count, scanReqs_tier1_missing, scanReqs_tier1_missing]
  have htot : (pre ++ ⟨txt, tier, some "EXACT", ev⟩ :: post).countP isTier1 =
      (pre ++ ⟨txt, tier, some "NONE", ev⟩ :: post).countP isTier1 := by
    rw [List.countP_append, List.countP_append, List.countP_cons, List.countP_cons]
    rfl
  rw [htot]
  have hm : (pre ++ ⟨txt, tier, some "EXACT", ev⟩ :: post).countP isMissingCrit ≤
      (pre ++ ⟨txt, tier, some "NONE", ev⟩ :: post).countP isMissingCrit := by
    rw [List.countP_append, List.countP_append, List.countP_cons, List.countP_cons]
    have h1 : isMissingCrit ⟨txt, tier, some "EXACT", ev⟩ = false := by
      simp [isMissingCrit, effMT]
    rw [h1]
    by_cases h2 : isMissingCrit ⟨txt, tier, some "NONE", ev⟩ <;> simp [h2]
  exact applyCaps_fst_mono
    (rawScoreQ_mono_NONE_EXACT pre post txt tier ev ry cy sr sig) hm
    (countP_isMissing_le_isTier1 _)

/-- C5 (code bug): on the in-contract input of a Tier-1 CONTEXTUAL
requirement whose evidence key is present with value null, the plan
generator slices evidence[:50] on None and raises TypeError instead of
returning a (non-empty) list. -/
theorem C5_never_empty_code_bug :
    generate_optimization_plan 50 []
      [⟨some "Docker", some 1, some "CONTEXTUAL", some none⟩] "" =
      Except.error "TypeError: NoneType object is not subscriptable" := by
  rfl

/-- C7: when at least one Tier-1 requirement exists and every Tier-1
requirement has effective match_type NONE, the zero-match branch of the elif
chain wins: the score is min-capped at 30 with exactly the reason "No
critical requirements matched" (none of the Missing-N reasons), and the
experience cap 55 is still applied independently via min exactly when the
experience ratio is below one half. -/
theorem C7_zero_match_cap_tiebreak (reqs : List Req) (ry cy : ℤ) (sr : Bool)
    (sig : ℤ) (t : String)
    (h1 : 0 < (scanReqs reqs).t1.total)
    (h2 : ∀ r ∈ reqs, effTier r = 1 → effMT r = "NONE") :
    (calculate_score reqs ry cy sr sig t).score =
      pyRound (if experienceRatio ry cy < 1/2 then
        min (min (rawScoreQ reqs ry cy sr sig) 30) 55
      else min (rawScoreQ reqs ry cy sr sig) 30) ∧
    (calculate_score reqs ry cy sr sig t).caps_applied =
      "No critical requirements matched" ::
        (if experienceRatio ry cy < 1/2 then
          ["Experience below 50% of requirement"] else []) := by
  have hnc : (scanReqs reqs).tier1_none_count = (scanReqs reqs).t1.total := by
    rw [scanReqs_tier1_none_count, scanReqs_t1_total,
      countP_missing_eq_tier1_of_all_none h2]
  have hcond : 0 < (scanReqs reqs).t1.total ∧
      (scanReqs reqs).tier1_none_count = (scanReqs reqs).t1.total := ⟨h1, hnc⟩
  have hexp : capsMentionExperience ["No critical requirements matched"] = false := by
    decide
  constructor
  · rw [calculate_score_score, applyCaps_fst, if_pos hcond]
  · rw [calculate_score_caps_applied, applyCaps_snd, if_pos hcond]
    by_cases hr : experienceRatio ry cy < 1/2
    · simp only [if_pos hr, hexp]
      simp
    · simp only [if_neg hr]

/-- C7 witness: one Tier-1 NONE requirement with experience ratio 1/5. -/
theorem C7_zero_match_cap_tiebreak_witness :
    (0 < (scanReqs [⟨some "AWS", some 1, some "NONE", none⟩]).t1.total) ∧
    (∀ r ∈ [(⟨some "AWS", some 1, some "NONE", none⟩ : Req)],
      effTier r = 1 → effMT r = "NONE") ∧
    ((calculate_score [⟨some "AWS", some 1, some "NONE", none⟩] 10 2 false 0 "").score =
      pyRound (if experienceRatio 10 2 < 1/2 then
        min (min (rawScoreQ [⟨some "AWS", some 1, some "NONE", none⟩] 10 2 false 0) 30) 55
      else min (rawScoreQ [⟨some "AWS", some 1, some "NONE", none⟩] 10 2 false 0) 30) ∧
     (calculate_score [⟨some "AWS", some 1, some "NONE", none⟩] 10 2 false 0 "").caps_applied =
      "No critical requirements matched" ::
        (if experienceRatio 10 2 < 1/2 then
          ["Experience below 50% of requirement"] else [])) :=
  ⟨by decide, by decide,
    C7_zero_match_cap_tiebreak [⟨some "AWS", some 1, some "NONE", none⟩] 10 2 false 0 ""
      (by decide) (by decide)⟩

/-- C10: missing_critical collects exactly the Tier-1 requirements whose
effective match_type is NONE, matched_critical exactly the remaining Tier-1
requirements, weak_matches exactly the Tier-1/Tier-2 CONTEXTUAL requirements,
and the lengths agree with tier1.matched_count and
tier1.total_count - tier1.matched_count. -/
theorem C10_critical_lists (reqs : List Req) (ry cy : ℤ) (sr : Bool) (sig : ℤ)
    (t : String) :
    (calculate_score reqs ry cy sr sig t).missing_critical =
      (reqs.filter isMissingCrit).map textOf ∧
    (calculate_score reqs ry cy sr sig t).matched_critical =
      (reqs.filter isMatchedCrit).map textOf ∧
    (calculate_score reqs ry cy sr sig t).weak_matches =
      (reqs.filter isWeak).map textOf ∧
    (calculate_score reqs ry cy sr sig t).matched_critical.length =
      (calculate_score reqs ry cy sr sig t).tier1.matched_count ∧
    (calculate_score reqs ry cy sr sig t).missing_critical.length =
      (calculate_score reqs ry cy sr sig t).tier1.total_count -
        (calculate_score reqs ry cy sr sig t).tier1.matched_count := by
  refine ⟨?_, ?_, ?_, ?_, ?_⟩
  · rw [calculate_score_missing, scanReqs_missing]
  · rw [calculate_score_matched, scanReqs_matched]
  · rw [calculate_score_weak, scanReqs_weak]
  · rw [calculate_score_matched, scanReqs_matched,
      calculate_score_tier1_matched_count, scanReqs_t1_matched,
      List.length_map, ← List.countP_eq_length_filter]
  · rw [calculate_score_missing, scanReqs_missing,
      calculate_score_tier1_matched_count, scanReqs_t1_matched,
      calculate_score_tier1_total_count, scanReqs_t1_total,
      List.length_map, ← List.countP_eq_length_filter]
    have := countP_missing_add_matched reqs
    omega

end ScoringEngine
